import Mathlib

/-!
Verification of the SHAAD n8n workflow provisioning script
(`scripts/setup_n8n_workflows.py`) against its specification.

The script is a synchronous HTTP client.  We model it with a shallow
embedding:

* JSON values are the inductive `Json`; Python subscripting, iteration and
  truthiness are explicit functions returning `Except PyErr _` where the
  Python operation can raise.
* The remote n8n service is a value of `Service σ`: a deterministic handler
  from a service state and a `Request` to a response (or a raised transport
  error, modelling `requests` exceptions) and a successor state.
* A run carries a `RunState`: the service state, the list of HTTP requests
  issued so far (the trace), and the lines printed to stdout.
* Fallible Python code returns `Except PyErr _`; an `Except.error` escaping
  `mainRun` models an uncaught Python exception (CPython then exits 1).
-/

set_option linter.unusedVariables false

/-- JSON values, as produced by `response.json()` and submitted as request
bodies.  Numbers in the script's data are all integers. -/
inductive Json where
  | null
  | bool (b : Bool)
  | num (n : Int)
  | str (s : String)
  | arr (elems : List Json)
  | obj (fields : List (String × Json))

/-- Python exceptions that the modelled operations can raise. -/
inductive PyErr where
  /-- `KeyError` from subscripting a dict with a missing key. -/
  | keyError (k : String)
  /-- `TypeError` from subscripting or iterating a value of the wrong type. -/
  | typeError
  /-- `json.JSONDecodeError` from `response.json()` on a non-JSON body. -/
  | jsonDecodeError
  /-- a `requests` transport exception (connection refused, timeout, ...). -/
  | connectionError
deriving DecidableEq

/-- Python subscripting `v[k]` with a string key: returns the field of a
dict, raises `KeyError` if absent, `TypeError` if `v` is not a dict. -/
def Json.getField : Json → String → Except PyErr Json
  | .obj fields, k =>
    match fields.lookup k with
    | some v => .ok v
    | none => .error (.keyError k)
  | _, _ => .error .typeError

/-- Python iteration `for w in v`: arrays yield their elements, strings yield
their one-character substrings, dicts yield their keys; other values raise
`TypeError`. -/
def Json.pyIter : Json → Except PyErr (List Json)
  | .arr xs => .ok xs
  | .str s => .ok (s.toList.map fun c => .str (String.mk [c]))
  | .obj fields => .ok (fields.map fun kv => .str kv.1)
  | _ => .error .typeError

/-- Python truthiness of a JSON value (`if workflow_id:`). -/
def Json.pyTruthy : Json → Bool
  | .null => false
  | .bool b => b
  | .num n => n != 0
  | .str s => s != ""
  | .arr xs => !xs.isEmpty
  | .obj fields => !fields.isEmpty

/-- Python `str()` of a JSON value, as interpolated into an f-string.  The
script only ever interpolates the service-assigned workflow id, which is a
scalar in every specified interaction; the `str()` of containers is
abbreviated. -/
def Json.pyStr : Json → String
  | .null => "None"
  | .bool true => "True"
  | .bool false => "False"
  | .num n => toString n
  | .str s => s
  | .arr _ => "<list>"
  | .obj _ => "<dict>"

/-- Python `v == name` where `name` is a `str`: true exactly for an equal
string; values of any other type compare unequal. -/
def Json.pyEqStr : Json → String → Bool
  | .str t, name => t == name
  | _, _ => false

/-- HTTP method of a request issued by the script. -/
inductive Method where
  | get
  | post
deriving DecidableEq

/-- An HTTP request as the script builds it with `requests.get`/`requests.post`:
url, the headers the script sets, the optional basic-auth pair, and the JSON
body for `json=`. -/
structure Request where
  method : Method
  url : String
  headers : List (String × String)
  auth : Option (String × String)
  body : Option Json

/-- An HTTP response: status code, raw text, and the result of parsing the
body as JSON (`none` when `response.json()` would raise). -/
structure HttpResponse where
  status_code : Nat
  text : String
  jsonBody : Option Json

/-- The remote service: a deterministic handler from service state and
request to either a response or a raised transport error, plus the successor
service state. -/
structure Service (σ : Type) where
  handle : σ → Request → Except PyErr HttpResponse × σ

/-- State threaded through a run of the script: the service state, the trace
of issued requests, and the printed lines. -/
structure RunState (σ : Type) where
  svcState : σ
  trace : List Request
  output : List String

/-- Issue one HTTP request: on a transport error the exception propagates
(the script has no try/except); otherwise the request is recorded in the
trace. -/
def doRequest {σ : Type} (svc : Service σ) (req : Request) (rs : RunState σ) :
    Except PyErr (HttpResponse × RunState σ) :=
  match svc.handle rs.svcState req with
  | (.error e, _) => .error e
  | (.ok resp, s2) => .ok (resp, { rs with svcState := s2, trace := rs.trace ++ [req] })

/-- `print(line)`. -/
def printLine {σ : Type} (rs : RunState σ) (line : String) : RunState σ :=
  { rs with output := rs.output ++ [line] }

/-- `response.json()`: raises `JSONDecodeError` when the body is not JSON. -/
def pyParse (resp : HttpResponse) : Except PyErr Json :=
  match resp.jsonBody with
  | some j => .ok j
  | none => .error .jsonDecodeError

/-- Python `any(f w for w in ws)` where `f` can raise: short-circuits at the
first `true`, propagates the first exception otherwise encountered. -/
def pyAny : List Json → (Json → Except PyErr Bool) → Except PyErr Bool
  | [], _ => .ok false
  | w :: ws, f =>
    match f w with
    | .error e => .error e
    | .ok true => .ok true
    | .ok false => pyAny ws f

/-- The process environment: `os.getenv` sees `none` for an unset variable
and `some v` (possibly `some ""`) for a set one. -/
structure Env where
  n8n_host : Option String
  n8n_port : Option String
  n8n_api_key : Option String
  n8n_basic_auth_user : Option String
  n8n_basic_auth_password : Option String

/-- `os.getenv(key, default)`. -/
def pyGetenv : Option String → String → String
  | some v, _ => v
  | none, d => d

/-- Python truthiness of an `os.getenv(key)` result: `None` and `""` are
falsy. -/
def envTruthy : Option String → Bool
  | some v => v != ""
  | none => false

/-- The provisioning client's fields, as set by `N8NWorkflowSetup.__init__`. -/
structure N8NWorkflowSetup where
  base_url : String
  headers : List (String × String)
  auth : Option (String × String)

/-- `N8NWorkflowSetup.__init__`, lines 17-32 of the script: build the base
URL from `N8N_HOST`/`N8N_PORT` (defaults `localhost`/`5678`), then resolve
authentication: an API key header if `N8N_API_KEY` is truthy, else basic
auth when both `N8N_BASIC_AUTH_USER` and `N8N_BASIC_AUTH_PASSWORD` are
truthy, else nothing. -/
def N8NWorkflowSetup.init (env : Env) : N8NWorkflowSetup :=
  let base_url := "http://" ++ pyGetenv env.n8n_host "localhost" ++ ":" ++ pyGetenv env.n8n_port "5678"
  if envTruthy env.n8n_api_key then
    { base_url := base_url
      headers := [("X-N8N-API-KEY", pyGetenv env.n8n_api_key ""), ("Content-Type", "application/json")]
      auth := none }
  else
    let username := pyGetenv env.n8n_basic_auth_user ""
    let password := pyGetenv env.n8n_basic_auth_password ""
    { base_url := base_url
      headers := [("Content-Type", "application/json")]
      auth := if username != "" && password != "" then some (username, password) else none }

/-- The GET request issued by `workflow_exists` (lines 51-55). -/
def listRequest (self : N8NWorkflowSetup) : Request :=
  { method := .get
    url := self.base_url ++ "/api/v1/workflows"
    headers := self.headers
    auth := self.auth
    body := none }

/-- The POST request issued by `create_workflow` (lines 36-41). -/
def createRequest (self : N8NWorkflowSetup) (workflow_data : Json) : Request :=
  { method := .post
    url := self.base_url ++ "/api/v1/workflows"
    headers := self.headers
    auth := self.auth
    body := some workflow_data }

/-- The expression `response.json()['data']['id']` on a creation response
(line 44), with each step's possible exception. -/
def createdId (resp : HttpResponse) : Except PyErr Json :=
  match pyParse resp with
  | .error e => .error e
  | .ok j =>
    match j.getField "data" with
    | .error e => .error e
    | .ok d => d.getField "id"

/-- The expression `response.json()['data']` on a listing response, as
iterated by the generator on line 59, with each step's possible
exception. -/
def listedWorkflows (resp : HttpResponse) : Except PyErr (List Json) :=
  match pyParse resp with
  | .error e => .error e
  | .ok j =>
    match j.getField "data" with
    | .error e => .error e
    | .ok workflows => workflows.pyIter

/-- `N8NWorkflowSetup.create_workflow`, lines 34-47: POST the definition; on
status 201 return `response.json()['data']['id']`, otherwise print the raw
body and return `None`. -/
def N8NWorkflowSetup.create_workflow {σ : Type} (self : N8NWorkflowSetup) (svc : Service σ)
    (workflow_data : Json) (rs : RunState σ) : Except PyErr (Option Json × RunState σ) :=
  match doRequest svc (createRequest self workflow_data) rs with
  | .error e => .error e
  | .ok (response, rs) =>
    if response.status_code = 201 then
      match createdId response with
      | .error e => .error e
      | .ok i => .ok (some i, rs)
    else
      .ok (none, printLine rs ("Failed to create workflow: " ++ response.text))

/-- The test `w['name'] == name` made by the generator on line 59, with its
possible exception. -/
def nameTest (name : String) (w : Json) : Except PyErr Bool :=
  match w.getField "name" with
  | .error e => .error e
  | .ok v => .ok (v.pyEqStr name)

/-- `N8NWorkflowSetup.workflow_exists`, lines 49-60: GET the listing; on
status 200 test `any(w['name'] == name for w in response.json()['data'])`,
on any other status return `False`. -/
def N8NWorkflowSetup.workflow_exists {σ : Type} (self : N8NWorkflowSetup) (svc : Service σ)
    (name : String) (rs : RunState σ) : Except PyErr (Bool × RunState σ) :=
  match doRequest svc (listRequest self) rs with
  | .error e => .error e
  | .ok (response, rs) =>
    if response.status_code = 200 then
      match listedWorkflows response with
      | .error e => .error e
      | .ok ws =>
        match pyAny ws (nameTest name) with
        | .error e => .error e
        | .ok b => .ok (b, rs)
    else
      .ok (false, rs)

/-!
The four hard-coded workflow definitions, transcribed verbatim from the
Python dict literals (lines 70-137, 151-207, 221-287, 301-354 of the
script).  Literal braces, apostrophes and backticks inside embedded
expression strings are written with escape codes.
-/

def sendNotificationWorkflow : Json :=
  .obj [
    ("name", .str "SHAAD_Send_Notification"),
    ("active", .bool true),
    ("nodes", .arr [
      .obj [
        ("parameters", .obj []),
        ("name", .str "Start"),
        ("type", .str "n8n-nodes-base.start"),
        ("typeVersion", .num 1),
        ("position", .arr [
          .num 250,
          .num 300])],
      .obj [
        ("parameters", .obj [
          ("conditions", .obj [
            ("string", .arr [
              .obj [
                ("value1", .str "=\x7b\x7b$json[\"channel\"]\x7d\x7d"),
                ("operation", .str "equals"),
                ("value2", .str "email")]])])]),
        ("name", .str "Route by Channel"),
        ("type", .str "n8n-nodes-base.if"),
        ("typeVersion", .num 1),
        ("position", .arr [
          .num 450,
          .num 300])],
      .obj [
        ("parameters", .obj [
          ("resource", .str "message"),
          ("operation", .str "send"),
          ("from", .str "=SHAAD Assistant <noreply@shaad.local>"),
          ("to", .str "=\x7b\x7b$json[\"recipient\"]\x7d\x7d"),
          ("subject", .str "=\x7b\x7b$json[\"subject\"]\x7d\x7d"),
          ("text", .str "=\x7b\x7b$json[\"message\"]\x7d\x7d")]),
        ("name", .str "Send Email"),
        ("type", .str "n8n-nodes-base.emailSend"),
        ("typeVersion", .num 1),
        ("position", .arr [
          .num 650,
          .num 200])],
      .obj [
        ("parameters", .obj [
          ("url", .str "=\x7b\x7b$json[\"webhook_url\"]\x7d\x7d"),
          ("requestMethod", .str "POST"),
          ("jsonParameters", .bool true),
          ("options", .obj []),
          ("bodyParametersJson", .str "=\x7b\x7bJSON.stringify($json)\x7d\x7d")]),
        ("name", .str "Send to Webhook"),
        ("type", .str "n8n-nodes-base.httpRequest"),
        ("typeVersion", .num 1),
        ("position", .arr [
          .num 650,
          .num 400])]]),
    ("connections", .obj [
      ("Start", .obj [
        ("main", .arr [
          .arr [
            .obj [
              ("node", .str "Route by Channel"),
              ("type", .str "main"),
              ("index", .num 0)]]])]),
      ("Route by Channel", .obj [
        ("main", .arr [
          .arr [
            .obj [
              ("node", .str "Send Email"),
              ("type", .str "main"),
              ("index", .num 0)]],
          .arr [
            .obj [
              ("node", .str "Send to Webhook"),
              ("type", .str "main"),
              ("index", .num 0)]]])])])]

def webSearchWorkflow : Json :=
  .obj [
    ("name", .str "SHAAD_Web_Search"),
    ("active", .bool true),
    ("nodes", .arr [
      .obj [
        ("parameters", .obj []),
        ("name", .str "Start"),
        ("type", .str "n8n-nodes-base.start"),
        ("typeVersion", .num 1),
        ("position", .arr [
          .num 250,
          .num 300])],
      .obj [
        ("parameters", .obj [
          ("url", .str "https://api.duckduckgo.com/"),
          ("requestMethod", .str "GET"),
          ("queryParametersUi", .obj [
            ("parameter", .arr [
              .obj [
                ("name", .str "q"),
                ("value", .str "=\x7b\x7b$json[\"query\"]\x7d\x7d")],
              .obj [
                ("name", .str "format"),
                ("value", .str "json")],
              .obj [
                ("name", .str "no_html"),
                ("value", .str "1")]])])]),
        ("name", .str "Search DuckDuckGo"),
        ("type", .str "n8n-nodes-base.httpRequest"),
        ("typeVersion", .num 1),
        ("position", .arr [
          .num 450,
          .num 300])],
      .obj [
        ("parameters", .obj [
          ("mode", .str "runOnceForEachItem"),
          ("jsCode", .str "// Format search results\nconst results = $input.item.json;\nconst formatted = \x7b\n  query: $node[\"Start\"].json[\"query\"],\n  results: []\n\x7d;\n\nif (results.RelatedTopics) \x7b\n  formatted.results = results.RelatedTopics.slice(0, 5).map(topic => (\x7b\n    title: topic.Text || \x27\x27,\n    url: topic.FirstURL || \x27\x27,\n    description: topic.Text || \x27\x27\n  \x7d));\n\x7d\n\nreturn formatted;")]),
        ("name", .str "Format Results"),
        ("type", .str "n8n-nodes-base.code"),
        ("typeVersion", .num 1),
        ("position", .arr [
          .num 650,
          .num 300])]]),
    ("connections", .obj [
      ("Start", .obj [
        ("main", .arr [
          .arr [
            .obj [
              ("node", .str "Search DuckDuckGo"),
              ("type", .str "main"),
              ("index", .num 0)]]])]),
      ("Search DuckDuckGo", .obj [
        ("main", .arr [
          .arr [
            .obj [
              ("node", .str "Format Results"),
              ("type", .str "main"),
              ("index", .num 0)]]])])])]

def homeAutomationWorkflow : Json :=
  .obj [
    ("name", .str "SHAAD_Home_Control"),
    ("active", .bool true),
    ("nodes", .arr [
      .obj [
        ("parameters", .obj []),
        ("name", .str "Start"),
        ("type", .str "n8n-nodes-base.start"),
        ("typeVersion", .num 1),
        ("position", .arr [
          .num 250,
          .num 300])],
      .obj [
        ("parameters", .obj [
          ("conditions", .obj [
            ("string", .arr [
              .obj [
                ("value1", .str "=\x7b\x7b$json[\"device_type\"]\x7d\x7d"),
                ("operation", .str "equals"),
                ("value2", .str "light")]])])]),
        ("name", .str "Device Router"),
        ("type", .str "n8n-nodes-base.if"),
        ("typeVersion", .num 1),
        ("position", .arr [
          .num 450,
          .num 300])],
      .obj [
        ("parameters", .obj [
          ("url", .str "=\x7b\x7b$json[\"device_api_url\"]\x7d\x7d"),
          ("requestMethod", .str "POST"),
          ("jsonParameters", .bool true),
          ("options", .obj []),
          ("bodyParametersJson", .str "=\x7b\n  \"action\": \"\x7b\x7b$json[\"action\"]\x7d\x7d\",\n  \"value\": \"\x7b\x7b$json[\"value\"]\x7d\x7d\"\n\x7d")]),
        ("name", .str "Control Device"),
        ("type", .str "n8n-nodes-base.httpRequest"),
        ("typeVersion", .num 1),
        ("position", .arr [
          .num 650,
          .num 300])],
      .obj [
        ("parameters", .obj [
          ("mode", .str "runOnceForEachItem"),
          ("jsCode", .str "// Log action for future learning\nconst action = $input.item.json;\nreturn \x7b\n  success: true,\n  device: action.device_name,\n  action: action.action,\n  timestamp: new Date().toISOString()\n\x7d;")]),
        ("name", .str "Log Action"),
        ("type", .str "n8n-nodes-base.code"),
        ("typeVersion", .num 1),
        ("position", .arr [
          .num 850,
          .num 300])]]),
    ("connections", .obj [
      ("Start", .obj [
        ("main", .arr [
          .arr [
            .obj [
              ("node", .str "Device Router"),
              ("type", .str "main"),
              ("index", .num 0)]]])]),
      ("Device Router", .obj [
        ("main", .arr [
          .arr [
            .obj [
              ("node", .str "Control Device"),
              ("type", .str "main"),
              ("index", .num 0)]],
          .arr [
            .obj [
              ("node", .str "Control Device"),
              ("type", .str "main"),
              ("index", .num 0)]]])]),
      ("Control Device", .obj [
        ("main", .arr [
          .arr [
            .obj [
              ("node", .str "Log Action"),
              ("type", .str "main"),
              ("index", .num 0)]]])])])]

def scheduleTaskWorkflow : Json :=
  .obj [
    ("name", .str "SHAAD_Schedule_Task"),
    ("active", .bool true),
    ("nodes", .arr [
      .obj [
        ("parameters", .obj []),
        ("name", .str "Start"),
        ("type", .str "n8n-nodes-base.start"),
        ("typeVersion", .num 1),
        ("position", .arr [
          .num 250,
          .num 300])],
      .obj [
        ("parameters", .obj [
          ("mode", .str "runOnceForEachItem"),
          ("jsCode", .str "// Store task in database or schedule system\nconst task = $input.item.json;\n\n// Parse the scheduled time\nconst scheduledTime = new Date(task.scheduled_time);\nconst now = new Date();\n\n// Calculate delay in milliseconds\nconst delay = scheduledTime - now;\n\nreturn \x7b\n  task_id: Math.random().toString(36).substr(2, 9),\n  title: task.title,\n  description: task.description,\n  scheduled_time: scheduledTime.toISOString(),\n  delay_ms: delay,\n  user_id: task.user_id,\n  notification_method: task.notification_method || \x27email\x27\n\x7d;")]),
        ("name", .str "Process Task"),
        ("type", .str "n8n-nodes-base.code"),
        ("typeVersion", .num 1),
        ("position", .arr [
          .num 450,
          .num 300])],
      .obj [
        ("parameters", .obj [
          ("amount", .str "=\x7b\x7b$json[\"delay_ms\"]\x7d\x7d"),
          ("unit", .str "milliseconds")]),
        ("name", .str "Wait"),
        ("type", .str "n8n-nodes-base.wait"),
        ("typeVersion", .num 1),
        ("position", .arr [
          .num 650,
          .num 300])],
      .obj [
        ("parameters", .obj [
          ("workflowId", .str "=\x7b\x7b$parameter[\"notification_workflow_id\"]\x7d\x7d"),
          ("workflowParameters", .str "=\x7b\n  \"channel\": \"\x7b\x7b$json[\"notification_method\"]\x7d\x7d\",\n  \"recipient\": \"\x7b\x7b$json[\"user_id\"]\x7d\x7d\",\n  \"subject\": \"Reminder: \x7b\x7b$json[\"title\"]\x7d\x7d\",\n  \"message\": \"\x7b\x7b$json[\"description\"]\x7d\x7d\"\n\x7d")]),
        ("name", .str "Send Reminder"),
        ("type", .str "n8n-nodes-base.executeWorkflow"),
        ("typeVersion", .num 1),
        ("position", .arr [
          .num 850,
          .num 300])]]),
    ("connections", .obj [
      ("Start", .obj [
        ("main", .arr [
          .arr [
            .obj [
              ("node", .str "Process Task"),
              ("type", .str "main"),
              ("index", .num 0)]]])]),
      ("Process Task", .obj [
        ("main", .arr [
          .arr [
            .obj [
              ("node", .str "Wait"),
              ("type", .str "main"),
              ("index", .num 0)]]])]),
      ("Wait", .obj [
        ("main", .arr [
          .arr [
            .obj [
              ("node", .str "Send Reminder"),
              ("type", .str "main"),
              ("index", .num 0)]]])])])]


/-- The idempotency key of the notification template (line 64). -/
def sendNotificationName : String := "SHAAD_Send_Notification"

/-- The idempotency key of the web-search template (line 145). -/
def webSearchName : String := "SHAAD_Web_Search"

/-- The idempotency key of the home-control template (line 215). -/
def homeControlName : String := "SHAAD_Home_Control"

/-- The idempotency key of the schedule-task template (line 295). -/
def scheduleTaskName : String := "SHAAD_Schedule_Task"

/-- The check-then-create pattern that each of the four
`create_*_workflow` methods instantiates inline (e.g. lines 62-141): if a
workflow with the template's name already exists, print so and stop;
otherwise submit the definition and, when a truthy id comes back, print the
created id. -/
def provisionWorkflow {σ : Type} (self : N8NWorkflowSetup) (svc : Service σ)
    (workflow_name : String) (workflow : Json) (rs : RunState σ) :
    Except PyErr (RunState σ) :=
  match self.workflow_exists svc workflow_name rs with
  | .error e => .error e
  | .ok (ex, rs) =>
    if ex then
      .ok (printLine rs ("✓ Workflow \x27" ++ workflow_name ++ "\x27 already exists"))
    else
      match self.create_workflow svc workflow rs with
      | .error e => .error e
      | .ok (workflow_id, rs) =>
        match workflow_id with
        | some i =>
          if i.pyTruthy then
            .ok (printLine rs ("✓ Created workflow \x27" ++ workflow_name ++ "\x27 with ID: " ++ i.pyStr))
          else
            .ok rs
        | none => .ok rs

/-- `create_send_notification_workflow`, lines 62-141. -/
def N8NWorkflowSetup.create_send_notification_workflow {σ : Type} (self : N8NWorkflowSetup)
    (svc : Service σ) (rs : RunState σ) : Except PyErr (RunState σ) :=
  provisionWorkflow self svc sendNotificationName sendNotificationWorkflow rs

/-- `create_web_search_workflow`, lines 143-211. -/
def N8NWorkflowSetup.create_web_search_workflow {σ : Type} (self : N8NWorkflowSetup)
    (svc : Service σ) (rs : RunState σ) : Except PyErr (RunState σ) :=
  provisionWorkflow self svc webSearchName webSearchWorkflow rs

/-- `create_home_automation_workflow`, lines 213-291. -/
def N8NWorkflowSetup.create_home_automation_workflow {σ : Type} (self : N8NWorkflowSetup)
    (svc : Service σ) (rs : RunState σ) : Except PyErr (RunState σ) :=
  provisionWorkflow self svc homeControlName homeAutomationWorkflow rs

/-- `create_schedule_task_workflow`, lines 293-358. -/
def N8NWorkflowSetup.create_schedule_task_workflow {σ : Type} (self : N8NWorkflowSetup)
    (svc : Service σ) (rs : RunState σ) : Except PyErr (RunState σ) :=
  provisionWorkflow self svc scheduleTaskName scheduleTaskWorkflow rs

/-- `print("=" * 50)`. -/
def eqBanner : String := String.mk (List.replicate 50 '=')

/-- The fixed lines printed after the four templates (lines 370-376). -/
def closingLines : List String :=
  [eqBanner,
   "✓ Workflow setup complete!",
   "\nAvailable workflows:",
   "- SHAAD_Send_Notification: Send notifications via email, webhook, etc.",
   "- SHAAD_Web_Search: Search the web for information",
   "- SHAAD_Home_Control: Control smart home devices",
   "- SHAAD_Schedule_Task: Schedule tasks and reminders"]

/-- `setup_all_workflows`, lines 360-376: banner, the four templates in
fixed order, closing lines. -/
def N8NWorkflowSetup.setup_all_workflows {σ : Type} (self : N8NWorkflowSetup)
    (svc : Service σ) (rs : RunState σ) : Except PyErr (RunState σ) :=
  let rs := printLine rs "Setting up n8n workflows for SHAAD..."
  let rs := printLine rs eqBanner
  match self.create_send_notification_workflow svc rs with
  | .error e => .error e
  | .ok rs =>
    match self.create_web_search_workflow svc rs with
    | .error e => .error e
    | .ok rs =>
      match self.create_home_automation_workflow svc rs with
      | .error e => .error e
      | .ok rs =>
        match self.create_schedule_task_workflow svc rs with
        | .error e => .error e
        | .ok rs => .ok (closingLines.foldl printLine rs)

/-- The `__main__` block, lines 378-380: construct the client from the
environment and run `setup_all_workflows` against the service, starting
with an empty trace and no output. -/
def mainRun {σ : Type} (env : Env) (svc : Service σ) (s0 : σ) :
    Except PyErr (RunState σ) :=
  (N8NWorkflowSetup.init env).setup_all_workflows svc
    { svcState := s0, trace := [], output := [] }

/-- The process exit code of a run: 0 on a normal return, 1 when an uncaught
Python exception terminates the interpreter. -/
def exitCode {σ : Type} : Except PyErr (RunState σ) → Nat
  | .ok _ => 0
  | .error _ => 1

/-- One workflow record held by the mock n8n service. -/
structure MockWorkflow where
  id : String
  name : String
  definition : Json

/-- State of the mock n8n service: the stored workflow records and a counter
for assigning fresh ids. -/
structure MockState where
  workflows : List MockWorkflow
  nextId : Nat

/-- The empty mock service state. -/
def MockState.empty : MockState := { workflows := [], nextId := 0 }

/-- Names of the workflows the mock service would report in its listing. -/
def MockState.names (s : MockState) : List String := s.workflows.map (·.name)

/-- A faithful stateful mock of the n8n REST API, as used by the spec's
testable properties: `GET` answers 200 with `{"data": [...]}` listing the
stored records; `POST` stores the submitted definition under a fresh id and
answers 201 with `{"data": {"id": ...}}`. -/
def mockService : Service MockState where
  handle s req :=
    match req.method with
    | .get =>
      (.ok { status_code := 200, text := "",
             jsonBody := some (.obj [("data", .arr (s.workflows.map fun w =>
               .obj [("id", .str w.id), ("name", .str w.name)]))]) }, s)
    | .post =>
      match req.body with
      | some wd =>
        let wfName :=
          match wd.getField "name" with
          | .ok (.str n) => n
          | _ => ""
        let newId := "wf" ++ toString s.nextId
        (.ok { status_code := 201, text := "",
               jsonBody := some (.obj [("data", .obj [("id", .str newId)])]) },
         { workflows := s.workflows ++ [{ id := newId, name := wfName, definition := wd }],
           nextId := s.nextId + 1 })
      | none =>
        (.ok { status_code := 400, text := "missing body", jsonBody := none }, s)

/-- A successful listing body as the script consumes it: a `data` array each
of whose records has a `name` field. -/
def listingShape (j : Json) : Prop :=
  ∃ ws, j.getField "data" = .ok (.arr ws) ∧ ∀ w ∈ ws, ∃ v, w.getField "name" = Except.ok v

/-- A successful creation body as the script consumes it: `data.id` present;
the service-assigned id is a nonempty string. -/
def creationShape (j : Json) : Prop :=
  ∃ d s, j.getField "data" = .ok d ∧ d.getField "id" = .ok (.str s) ∧ s ≠ ""

/-- A service is well formed when every call returns a response (no
transport fault) and its 2xx bodies have the documented shape. -/
def WellFormed {σ : Type} (svc : Service σ) : Prop :=
  ∀ s req, ∃ resp s2, svc.handle s req = (.ok resp, s2) ∧
    (req.method = .get → resp.status_code = 200 →
      ∃ j, resp.jsonBody = some j ∧ listingShape j) ∧
    (req.method = .post → resp.status_code = 201 →
      ∃ j, resp.jsonBody = some j ∧ creationShape j)

/-- Tests that a Python subscript result is a given string. -/
def expectStr : Except PyErr Json → String → Bool
  | .ok (.str t), s => t == s
  | _, _ => false

/-- The node names declared in a workflow definition's `nodes` list. -/
def nodeNames (wd : Json) : List String :=
  match wd.getField "nodes" with
  | .ok (.arr ns) =>
    ns.filterMap fun n =>
      match n.getField "name" with
      | .ok (.str s) => some s
      | _ => none
  | _ => []

/-- The downstream node names referenced by one source node's connection
entry (`{"main": [[{"node": ..., ...}, ...], ...]}`). -/
def targetRefs (v : Json) : List String :=
  match v with
  | .obj fields =>
    fields.flatMap fun kv =>
      match kv.2 with
      | .arr groups =>
        groups.flatMap fun g =>
          match g with
          | .arr conns =>
            conns.filterMap fun c =>
              match c.getField "node" with
              | .ok (.str s) => some s
              | _ => none
          | _ => []
      | _ => []
  | _ => []

/-- Every node name used in a workflow definition's `connections` map:
source keys and downstream `node` targets. -/
def connectionRefs (wd : Json) : List String :=
  match wd.getField "connections" with
  | .ok (.obj fields) => fields.flatMap fun kv => kv.1 :: targetRefs kv.2
  | _ => []

/-- The four hard-coded workflow definitions, in provisioning order. -/
def allWorkflows : List Json :=
  [sendNotificationWorkflow, webSearchWorkflow, homeAutomationWorkflow, scheduleTaskWorkflow]

/-- The exception-free value of the test `w['name'] == name`, defined for
records whose `name` lookup succeeds. -/
def nameMatches (name : String) (w : Json) : Bool :=
  match w.getField "name" with
  | .ok v => v.pyEqStr name
  | .error _ => false

theorem nameTest_eq_nameMatches (name : String) (w : Json) (v : Json)
    (hv : w.getField "name" = .ok v) :
    nameTest name w = .ok (nameMatches name w) := by
  simp [nameTest, nameMatches, hv]

theorem nameMatches_iff (name : String) (w : Json) :
    nameMatches name w = true ↔ w.getField "name" = Except.ok (Json.str name) := by
  unfold nameMatches
  cases h : w.getField "name" with
  | error e => simp
  | ok v => cases v <;> simp [Json.pyEqStr]

theorem pyAny_eq_any (f : Json → Except PyErr Bool) (g : Json → Bool) :
    ∀ ws : List Json, (∀ w ∈ ws, f w = .ok (g w)) → pyAny ws f = .ok (ws.any g)
  | [], _ => rfl
  | w :: ws, h => by
    have hw : f w = .ok (g w) := h w (List.mem_cons_self _ _)
    have ih := pyAny_eq_any f g ws (fun x hx => h x (List.mem_cons_of_mem _ hx))
    rw [pyAny, hw]
    cases hgw : g w <;> simp [hgw, ih]

theorem workflow_exists_200 {σ : Type} {svc : Service σ} {self : N8NWorkflowSetup}
    {name : String} {rs : RunState σ} {resp : HttpResponse} {s2 : σ} {ws : List Json}
    (hh : svc.handle rs.svcState (listRequest self) = (.ok resp, s2))
    (h200 : resp.status_code = 200)
    (hws : listedWorkflows resp = .ok ws)
    (hnames : ∀ w ∈ ws, ∃ v, w.getField "name" = Except.ok v) :
    self.workflow_exists svc name rs =
      .ok (ws.any (nameMatches name),
           { svcState := s2, trace := rs.trace ++ [listRequest self], output := rs.output }) := by
  have hany : pyAny ws (nameTest name) = .ok (ws.any (nameMatches name)) := by
    refine pyAny_eq_any _ _ ws fun w hw => ?_
    obtain ⟨v, hv⟩ := hnames w hw
    exact nameTest_eq_nameMatches name w v hv
  simp [N8NWorkflowSetup.workflow_exists, doRequest, hh, h200, hws, hany]

theorem workflow_exists_non200 {σ : Type} {svc : Service σ} {self : N8NWorkflowSetup}
    {name : String} {rs : RunState σ} {resp : HttpResponse} {s2 : σ}
    (hh : svc.handle rs.svcState (listRequest self) = (.ok resp, s2))
    (h200 : resp.status_code ≠ 200) :
    self.workflow_exists svc name rs =
      .ok (false,
           { svcState := s2, trace := rs.trace ++ [listRequest self], output := rs.output }) := by
  simp [N8NWorkflowSetup.workflow_exists, doRequest, hh, h200]

theorem workflow_exists_raise {σ : Type} {svc : Service σ} {self : N8NWorkflowSetup}
    {name : String} {rs : RunState σ} {resp : HttpResponse} {s2 : σ} {e : PyErr}
    (hh : svc.handle rs.svcState (listRequest self) = (.ok resp, s2))
    (h200 : resp.status_code = 200)
    (herr : listedWorkflows resp = .error e) :
    self.workflow_exists svc name rs = .error e := by
  simp [N8NWorkflowSetup.workflow_exists, doRequest, hh, h200, herr]

theorem create_workflow_201 {σ : Type} {svc : Service σ} {self : N8NWorkflowSetup}
    {wd : Json} {rs : RunState σ} {resp : HttpResponse} {s2 : σ} {i : Json}
    (hh : svc.handle rs.svcState (createRequest self wd) = (.ok resp, s2))
    (h201 : resp.status_code = 201)
    (hid : createdId resp = .ok i) :
    self.create_workflow svc wd rs =
      .ok (some i,
           { svcState := s2, trace := rs.trace ++ [createRequest self wd], output := rs.output }) := by
  simp [N8NWorkflowSetup.create_workflow, doRequest, hh, h201, hid]

theorem create_workflow_non201 {σ : Type} {svc : Service σ} {self : N8NWorkflowSetup}
    {wd : Json} {rs : RunState σ} {resp : HttpResponse} {s2 : σ}
    (hh : svc.handle rs.svcState (createRequest self wd) = (.ok resp, s2))
    (h201 : resp.status_code ≠ 201) :
    self.create_workflow svc wd rs =
      .ok (none,
           { svcState := s2, trace := rs.trace ++ [createRequest self wd],
             output := rs.output ++ ["Failed to create workflow: " ++ resp.text] }) := by
  simp [N8NWorkflowSetup.create_workflow, doRequest, printLine, hh, h201]

theorem create_workflow_raise {σ : Type} {svc : Service σ} {self : N8NWorkflowSetup}
    {wd : Json} {rs : RunState σ} {resp : HttpResponse} {s2 : σ} {e : PyErr}
    (hh : svc.handle rs.svcState (createRequest self wd) = (.ok resp, s2))
    (h201 : resp.status_code = 201)
    (herr : createdId resp = .error e) :
    self.create_workflow svc wd rs = .error e := by
  simp [N8NWorkflowSetup.create_workflow, doRequest, hh, h201, herr]

theorem workflow_exists_wf {σ : Type} {svc : Service σ} (hsvc : WellFormed svc)
    (self : N8NWorkflowSetup) (name : String) (rs : RunState σ) :
    ∃ b s2, self.workflow_exists svc name rs =
      .ok (b, { svcState := s2, trace := rs.trace ++ [listRequest self], output := rs.output }) := by
  obtain ⟨resp, s2, hh, hget, -⟩ := hsvc rs.svcState (listRequest self)
  by_cases h200 : resp.status_code = 200
  · obtain ⟨j, hj, ws, hdata, hnames⟩ := hget rfl h200
    have hws : listedWorkflows resp = .ok ws := by
      simp [listedWorkflows, pyParse, hj, hdata, Json.pyIter]
    exact ⟨_, _, workflow_exists_200 hh h200 hws hnames⟩
  · exact ⟨_, _, workflow_exists_non200 hh h200⟩

theorem create_workflow_wf {σ : Type} {svc : Service σ} (hsvc : WellFormed svc)
    (self : N8NWorkflowSetup) (wd : Json) (rs : RunState σ) :
    (∃ idStr s2, idStr ≠ "" ∧ self.create_workflow svc wd rs =
        .ok (some (.str idStr),
             { svcState := s2, trace := rs.trace ++ [createRequest self wd], output := rs.output }))
    ∨ (∃ line s2, self.create_workflow svc wd rs =
        .ok (none,
             { svcState := s2, trace := rs.trace ++ [createRequest self wd],
               output := rs.output ++ [line] })) := by
  obtain ⟨resp, s2, hh, -, hpost⟩ := hsvc rs.svcState (createRequest self wd)
  by_cases h201 : resp.status_code = 201
  · obtain ⟨j, hj, d, idStr, hdata, hid, hne⟩ := hpost rfl h201
    have hci : createdId resp = .ok (.str idStr) := by
      simp [createdId, pyParse, hj, hdata, hid]
    exact .inl ⟨idStr, s2, hne, create_workflow_201 hh h201 hci⟩
  · exact .inr ⟨_, s2, create_workflow_non201 hh h201⟩

/-- The trace contribution of one template's provisioning: always the
listing GET, followed by the creation POST when the check came back
negative. -/
def tShape (self : N8NWorkflowSetup) (wd : Json) (t : List Request) : Prop :=
  t = [listRequest self] ∨ t = [listRequest self, createRequest self wd]

theorem provisionWorkflow_wf {σ : Type} {svc : Service σ} (hsvc : WellFormed svc)
    (self : N8NWorkflowSetup) (n : String) (wd : Json) (rs : RunState σ) :
    ∃ rs2 t o, provisionWorkflow self svc n wd rs = .ok rs2 ∧
      rs2.trace = rs.trace ++ t ∧ tShape self wd t ∧
      rs2.output = rs.output ++ o ∧ o ≠ [] := by
  obtain ⟨b, s2, hex⟩ := workflow_exists_wf hsvc self n rs
  cases b
  case true =>
    have hres : provisionWorkflow self svc n wd rs =
        .ok (printLine { svcState := s2, trace := rs.trace ++ [listRequest self], output := rs.output }
              ("✓ Workflow \x27" ++ n ++ "\x27 already exists")) := by
      simp [provisionWorkflow, hex]
    exact ⟨_, [listRequest self], ["✓ Workflow \x27" ++ n ++ "\x27 already exists"],
      hres, by simp [printLine], .inl rfl, by simp [printLine], by simp⟩
  case false =>
    rcases create_workflow_wf hsvc self wd
        { svcState := s2, trace := rs.trace ++ [listRequest self], output := rs.output } with
      ⟨idStr, s3, hne, hcr⟩ | ⟨line, s3, hcr⟩
    · have htr : (Json.str idStr).pyTruthy = true := by
        simp [Json.pyTruthy, hne]
      have hres : provisionWorkflow self svc n wd rs =
          .ok (printLine
                { svcState := s3,
                  trace := (rs.trace ++ [listRequest self]) ++ [createRequest self wd],
                  output := rs.output }
                ("✓ Created workflow \x27" ++ n ++ "\x27 with ID: " ++ (Json.str idStr).pyStr)) := by
        simp [provisionWorkflow, hex, hcr, htr]
      exact ⟨_, [listRequest self, createRequest self wd],
        ["✓ Created workflow \x27" ++ n ++ "\x27 with ID: " ++ (Json.str idStr).pyStr],
        hres, by simp [printLine], .inr rfl, by simp [printLine], by simp⟩
    · have hres : provisionWorkflow self svc n wd rs =
          .ok { svcState := s3,
                trace := (rs.trace ++ [listRequest self]) ++ [createRequest self wd],
                output := rs.output ++ [line] } := by
        simp [provisionWorkflow, hex, hcr]
      exact ⟨_, [listRequest self, createRequest self wd], [line],
        hres, by simp, .inr rfl, by simp, by simp⟩

theorem foldl_printLine {σ : Type} (ls : List String) (rs : RunState σ) :
    ls.foldl printLine rs =
      { svcState := rs.svcState, trace := rs.trace, output := rs.output ++ ls } := by
  induction ls generalizing rs with
  | nil => simp
  | cons l ls ih => simp [printLine, ih]

theorem setup_all_wf {σ : Type} {svc : Service σ} (hsvc : WellFormed svc)
    (self : N8NWorkflowSetup) (rs : RunState σ) :
    ∃ rs2 t1 t2 t3 t4 o1 o2 o3 o4,
      self.setup_all_workflows svc rs = .ok rs2 ∧
      rs2.trace = rs.trace ++ t1 ++ t2 ++ t3 ++ t4 ∧
      tShape self sendNotificationWorkflow t1 ∧
      tShape self webSearchWorkflow t2 ∧
      tShape self homeAutomationWorkflow t3 ∧
      tShape self scheduleTaskWorkflow t4 ∧
      rs2.output = rs.output ++ ["Setting up n8n workflows for SHAAD...", eqBanner]
        ++ o1 ++ o2 ++ o3 ++ o4 ++ closingLines ∧
      o1 ≠ [] ∧ o2 ≠ [] ∧ o3 ≠ [] ∧ o4 ≠ [] := by
  obtain ⟨r1, t1, o1, h1, ht1, hs1, ho1, hne1⟩ :=
    provisionWorkflow_wf hsvc self sendNotificationName sendNotificationWorkflow
      (printLine (printLine rs "Setting up n8n workflows for SHAAD...") eqBanner)
  obtain ⟨r2, t2, o2, h2, ht2, hs2, ho2, hne2⟩ :=
    provisionWorkflow_wf hsvc self webSearchName webSearchWorkflow r1
  obtain ⟨r3, t3, o3, h3, ht3, hs3, ho3, hne3⟩ :=
    provisionWorkflow_wf hsvc self homeControlName homeAutomationWorkflow r2
  obtain ⟨r4, t4, o4, h4, ht4, hs4, ho4, hne4⟩ :=
    provisionWorkflow_wf hsvc self scheduleTaskName scheduleTaskWorkflow r3
  have hrun : self.setup_all_workflows svc rs = .ok (closingLines.foldl printLine r4) := by
    simp only [N8NWorkflowSetup.setup_all_workflows,
      N8NWorkflowSetup.create_send_notification_workflow,
      N8NWorkflowSetup.create_web_search_workflow,
      N8NWorkflowSetup.create_home_automation_workflow,
      N8NWorkflowSetup.create_schedule_task_workflow]
    simp only [h1, h2, h3, h4]
  refine ⟨closingLines.foldl printLine r4, t1, t2, t3, t4, o1, o2, o3, o4, hrun, ?_,
    hs1, hs2, hs3, hs4, ?_, hne1, hne2, hne3, hne4⟩
  · rw [foldl_printLine]
    simp [ht4, ht3, ht2, ht1, printLine, List.append_assoc]
  · rw [foldl_printLine]
    simp [ho4, ho3, ho2, ho1, printLine, List.append_assoc]

theorem mock_id_ne_empty (n : Nat) : "wf" ++ toString n ≠ "" := by
  intro h
  have h2 := congrArg String.length h
  rw [String.length_append] at h2
  have hwf : ("wf" : String).length = 2 := rfl
  have he : ("" : String).length = 0 := rfl
  rw [hwf, he] at h2
  omega

theorem mockService_wellFormed : WellFormed mockService := by
  intro s req
  cases hm : req.method
  case get =>
    have hh : mockService.handle s req =
        (.ok { status_code := 200, text := "",
               jsonBody := some (.obj [("data", .arr (s.workflows.map fun w =>
                 .obj [("id", .str w.id), ("name", .str w.name)]))]) }, s) := by
      simp [mockService, hm]
    refine ⟨_, _, hh, ?_, ?_⟩
    · intro _ _
      refine ⟨_, rfl, ?_⟩
      refine ⟨s.workflows.map (fun (w : MockWorkflow) =>
        Json.obj [("id", Json.str w.id), ("name", Json.str w.name)]), ?_, ?_⟩
      · rfl
      intro w hw
      rw [List.mem_map] at hw
      obtain ⟨wk, -, rfl⟩ := hw
      exact ⟨.str wk.name, rfl⟩
    · intro habs
      simp [hm] at habs
  case post =>
    cases hb : req.body
    case some wd =>
      have hh : mockService.handle s req =
          (.ok { status_code := 201, text := "",
                 jsonBody := some (.obj [("data", .obj [("id", .str ("wf" ++ toString s.nextId))])]) },
           { workflows := s.workflows ++
               [{ id := "wf" ++ toString s.nextId,
                  name := match wd.getField "name" with
                          | .ok (.str n) => n
                          | _ => "",
                  definition := wd }],
             nextId := s.nextId + 1 }) := by
        simp [mockService, hm, hb]
      refine ⟨_, _, hh, ?_, ?_⟩
      · intro habs
        simp [hm] at habs
      · intro _ _
        exact ⟨_, rfl, .obj [("id", .str ("wf" ++ toString s.nextId))],
          "wf" ++ toString s.nextId, rfl, rfl, mock_id_ne_empty s.nextId⟩
    case none =>
      have hh : mockService.handle s req =
          (.ok { status_code := 400, text := "missing body", jsonBody := none }, s) := by
        simp [mockService, hm, hb]
      refine ⟨_, _, hh, ?_, ?_⟩
      · intro habs
        simp [hm] at habs
      · intro _ h201
        simp at h201

/-- An environment with every `N8N_*` variable unset. -/
def envUnset : Env := ⟨none, none, none, none, none⟩

/-- The provisioning client constructed from the empty environment. -/
def selfW : N8NWorkflowSetup := N8NWorkflowSetup.init envUnset

/-- Tests a run result: `false` on an uncaught exception, otherwise the
given predicate on the final run state. -/
def okAnd {σ : Type} (r : Except PyErr (RunState σ)) (p : RunState σ → Bool) : Bool :=
  match r with
  | .ok rs => p rs
  | .error _ => false

/-- Tests that a `workflow_exists` call returned normally with `True`. -/
def existsTrue {σ : Type} (r : Except PyErr (Bool × RunState σ)) : Bool :=
  match r with
  | .ok (b, _) => b
  | .error _ => false

/-- C1: running `setup_all_workflows` twice against the stateful mock
service (whose listing always answers 200) creates each of the four
workflows exactly once during the first run; on the second run every
template's existence check returns true, no POST request is issued, and the
remote store still holds the four distinct names, so no two remote
workflows ever share a name recognized by the listing call. -/
theorem setup_twice_idempotent :
    okAnd (mainRun envUnset mockService MockState.empty) (fun rs1 =>
      rs1.svcState.names ==
          [sendNotificationName, webSearchName, homeControlName, scheduleTaskName]
        && existsTrue (selfW.workflow_exists mockService sendNotificationName rs1)
        && existsTrue (selfW.workflow_exists mockService webSearchName rs1)
        && existsTrue (selfW.workflow_exists mockService homeControlName rs1)
        && existsTrue (selfW.workflow_exists mockService scheduleTaskName rs1)
        && okAnd (selfW.setup_all_workflows mockService rs1) (fun rs2 =>
          ((rs2.trace.drop rs1.trace.length).filter (fun r => r.method == Method.post)).isEmpty
            && (rs2.svcState.names ==
                  [sendNotificationName, webSearchName, homeControlName, scheduleTaskName]))) =
      true := by
  decide

/-- C2: `workflow_exists` lists the remote workflows with one GET; when the
listing answers 200 with a well-formed body it returns normally, true
exactly when some record's `name` field equals the argument (case-
sensitive, as string equality); when the listing answers any non-200 status
it returns false without raising. -/
theorem workflow_exists_spec {σ : Type} (svc : Service σ) (self : N8NWorkflowSetup)
    (name : String) (rs : RunState σ) (resp : HttpResponse) (s2 : σ)
    (hh : svc.handle rs.svcState (listRequest self) = (.ok resp, s2)) :
    (∀ ws, resp.status_code = 200 → listedWorkflows resp = .ok ws →
      (∀ w ∈ ws, ∃ v, w.getField "name" = Except.ok v) →
      ∃ b, self.workflow_exists svc name rs =
          .ok (b, { svcState := s2, trace := rs.trace ++ [listRequest self],
                    output := rs.output }) ∧
        (b = true ↔ ∃ w ∈ ws, w.getField "name" = Except.ok (Json.str name)))
    ∧ (resp.status_code ≠ 200 →
        self.workflow_exists svc name rs =
          .ok (false, { svcState := s2, trace := rs.trace ++ [listRequest self],
                        output := rs.output })) := by
  constructor
  · intro ws h200 hws hnames
    refine ⟨ws.any (nameMatches name), workflow_exists_200 hh h200 hws hnames, ?_⟩
    rw [List.any_eq_true]
    exact ⟨fun ⟨w, hw, hmt⟩ => ⟨w, hw, (nameMatches_iff name w).mp hmt⟩,
           fun ⟨w, hw, hg⟩ => ⟨w, hw, (nameMatches_iff name w).mpr hg⟩⟩
  · exact workflow_exists_non200 hh

/-- A mock state already holding a `SHAAD_Web_Search` workflow. -/
def stateW : MockState :=
  { workflows := [{ id := "wf0", name := "SHAAD_Web_Search", definition := Json.null }],
    nextId := 1 }

/-- The listing response the mock service gives for `stateW`. -/
def respW : HttpResponse :=
  { status_code := 200, text := "",
    jsonBody := some (.obj [("data",
      .arr [.obj [("id", .str "wf0"), ("name", .str "SHAAD_Web_Search")]])]) }

theorem workflow_exists_spec_witness :
    ∃ b rs2, selfW.workflow_exists mockService "SHAAD_Web_Search"
        { svcState := stateW, trace := [], output := [] } = Except.ok (b, rs2) ∧ b = true := by
  obtain ⟨b, hb, hiff⟩ :=
    (workflow_exists_spec mockService selfW "SHAAD_Web_Search"
        { svcState := stateW, trace := [], output := [] } respW stateW rfl).1
      [Json.obj [("id", Json.str "wf0"), ("name", Json.str "SHAAD_Web_Search")]]
      rfl rfl
      (by
        intro w hw
        rw [List.mem_singleton] at hw
        subst hw
        exact ⟨Json.str "SHAAD_Web_Search", rfl⟩)
  refine ⟨b, _, hb, ?_⟩
  exact hiff.mpr ⟨Json.obj [("id", Json.str "wf0"), ("name", Json.str "SHAAD_Web_Search")],
    by simp, rfl⟩

/-- C3: `create_workflow` issues exactly one POST and does not retry; when
the response is 201 with a body carrying `data.id` it returns that id; on
any other status it prints the raw response body, returns `None`, and
raises nothing. -/
theorem create_workflow_spec {σ : Type} (svc : Service σ) (self : N8NWorkflowSetup)
    (wd : Json) (rs : RunState σ) (resp : HttpResponse) (s2 : σ)
    (hh : svc.handle rs.svcState (createRequest self wd) = (.ok resp, s2)) :
    (∀ i, resp.status_code = 201 → createdId resp = .ok i →
      self.create_workflow svc wd rs =
        .ok (some i, { svcState := s2, trace := rs.trace ++ [createRequest self wd],
                       output := rs.output }))
    ∧ (resp.status_code ≠ 201 →
      self.create_workflow svc wd rs =
        .ok (none, { svcState := s2, trace := rs.trace ++ [createRequest self wd],
                     output := rs.output ++ ["Failed to create workflow: " ++ resp.text] })) :=
  ⟨fun i h201 hid => create_workflow_201 hh h201 hid,
   fun h201 => create_workflow_non201 hh h201⟩

/-- The creation response the mock service gives from the empty state. -/
def respC : HttpResponse :=
  { status_code := 201, text := "",
    jsonBody := some (.obj [("data", .obj [("id", .str "wf0")])]) }

theorem create_workflow_spec_witness :
    ∃ rs2, selfW.create_workflow mockService sendNotificationWorkflow
        { svcState := MockState.empty, trace := [], output := [] } =
      Except.ok (some (Json.str "wf0"), rs2) :=
  ⟨_, (create_workflow_spec mockService selfW sendNotificationWorkflow
      { svcState := MockState.empty, trace := [], output := [] } respC
      { workflows := [{ id := "wf0", name := "SHAAD_Send_Notification",
                        definition := sendNotificationWorkflow }], nextId := 1 }
      rfl).1 (Json.str "wf0") rfl rfl⟩

theorem envTruthy_getenv (o : Option String) : envTruthy o = (pyGetenv o "" != "") := by
  cases o <;> rfl

theorem tShape_request_fields {self : N8NWorkflowSetup} {wd : Json} {t : List Request}
    {req : Request} (hs : tShape self wd t) (h : req ∈ t) :
    req.headers = self.headers ∧ req.auth = self.auth ∧
    req.url = self.base_url ++ "/api/v1/workflows" := by
  rcases hs with rfl | rfl
  · rw [List.mem_singleton] at h
    subst h
    exact ⟨rfl, rfl, rfl⟩
  · rcases List.mem_cons.mp h with rfl | h2
    · exact ⟨rfl, rfl, rfl⟩
    · rw [List.mem_singleton] at h2
      subst h2
      exact ⟨rfl, rfl, rfl⟩

theorem setup_trace_requests {σ : Type} {svc : Service σ} (hsvc : WellFormed svc)
    (self : N8NWorkflowSetup) (rs rs2 : RunState σ)
    (hrun : self.setup_all_workflows svc rs = .ok rs2) :
    ∀ req ∈ rs2.trace, req ∈ rs.trace ∨
      (req.headers = self.headers ∧ req.auth = self.auth ∧
       req.url = self.base_url ++ "/api/v1/workflows") := by
  obtain ⟨rs2', t1, t2, t3, t4, o1, o2, o3, o4, hrun', htr, hs1, hs2, hs3, hs4, -⟩ :=
    setup_all_wf hsvc self rs
  rw [hrun] at hrun'
  injection hrun' with h
  subst h
  intro req hreq
  rw [htr] at hreq
  simp only [List.append_assoc, List.mem_append] at hreq
  rcases hreq with hreq | hreq | hreq | hreq | hreq
  · exact .inl hreq
  · exact .inr (tShape_request_fields hs1 hreq)
  · exact .inr (tShape_request_fields hs2 hreq)
  · exact .inr (tShape_request_fields hs3 hreq)
  · exact .inr (tShape_request_fields hs4 hreq)

/-- An environment where `N8N_API_KEY` is set but empty, and both basic-auth
variables are set and nonempty. -/
def envEmptyKey : Env := ⟨none, none, some "", some "admin", some "secret"⟩

/-- C4 counterexample: with `N8N_API_KEY` set (to the empty string) the
claim requires every request to carry the `X-N8N-API-KEY` header and no
basic-auth credentials; the code instead tests Python truthiness, so it
attaches basic-auth credentials and no API-key header. -/
theorem auth_resolution_counterexample :
    envEmptyKey.n8n_api_key ≠ none ∧
    (listRequest (N8NWorkflowSetup.init envEmptyKey)).headers.lookup "X-N8N-API-KEY" = none ∧
    (listRequest (N8NWorkflowSetup.init envEmptyKey)).auth = some ("admin", "secret") := by
  refine ⟨?_, rfl, rfl⟩
  simp [envEmptyKey]

/-- C4 (amended): authentication is resolved once at construction and is
mutually exclusive, with "set" read as "set to a nonempty value": a truthy
`N8N_API_KEY` puts the `X-N8N-API-KEY` header on every request and no
basic-auth pair; otherwise truthy user and password give basic-auth and no
API-key header; otherwise requests are unauthenticated; and every request
issued by a run of `setup_all_workflows` carries exactly the resolved
headers and auth pair. -/
theorem auth_resolution_spec (env : Env) :
    (envTruthy env.n8n_api_key = true →
      (N8NWorkflowSetup.init env).headers =
        [("X-N8N-API-KEY", pyGetenv env.n8n_api_key ""),
         ("Content-Type", "application/json")] ∧
      (N8NWorkflowSetup.init env).auth = none)
    ∧ (envTruthy env.n8n_api_key = false →
       envTruthy env.n8n_basic_auth_user = true →
       envTruthy env.n8n_basic_auth_password = true →
      (N8NWorkflowSetup.init env).auth =
        some (pyGetenv env.n8n_basic_auth_user "", pyGetenv env.n8n_basic_auth_password "") ∧
      (N8NWorkflowSetup.init env).headers = [("Content-Type", "application/json")])
    ∧ (envTruthy env.n8n_api_key = false →
       (envTruthy env.n8n_basic_auth_user = false ∨
        envTruthy env.n8n_basic_auth_password = false) →
      (N8NWorkflowSetup.init env).auth = none ∧
      (N8NWorkflowSetup.init env).headers = [("Content-Type", "application/json")])
    ∧ (∀ (σ : Type) (svc : Service σ) (rs rs2 : RunState σ), WellFormed svc →
        (N8NWorkflowSetup.init env).setup_all_workflows svc rs = .ok rs2 →
        ∀ req ∈ rs2.trace, req ∈ rs.trace ∨
          (req.headers = (N8NWorkflowSetup.init env).headers ∧
           req.auth = (N8NWorkflowSetup.init env).auth)) := by
  refine ⟨?_, ?_, ?_, ?_⟩
  · intro hkey
    constructor <;> simp [N8NWorkflowSetup.init, hkey]
  · intro hkey huser hpass
    rw [envTruthy_getenv] at huser hpass
    constructor <;> simp [N8NWorkflowSetup.init, hkey, huser, hpass]
  · intro hkey hor
    rcases hor with hu | hp
    · rw [envTruthy_getenv] at hu
      constructor <;> simp [N8NWorkflowSetup.init, hkey, hu]
    · rw [envTruthy_getenv] at hp
      constructor <;> simp [N8NWorkflowSetup.init, hkey, hp]
  · intro σ svc rs rs2 hsvc hrun req hreq
    rcases setup_trace_requests hsvc (N8NWorkflowSetup.init env) rs rs2 hrun req hreq with
      h | ⟨h1, h2, -⟩
    · exact .inl h
    · exact .inr ⟨h1, h2⟩

/-- An environment with only `N8N_API_KEY` set, to a nonempty value. -/
def envKeyed : Env := ⟨none, none, some "secret-key", none, none⟩

theorem auth_resolution_spec_witness :
    (N8NWorkflowSetup.init envKeyed).headers =
      [("X-N8N-API-KEY", "secret-key"), ("Content-Type", "application/json")] ∧
    (N8NWorkflowSetup.init envKeyed).auth = none := by
  have h := (auth_resolution_spec envKeyed).1 (by decide)
  exact ⟨h.1, h.2⟩

/-- C5: `setup_all_workflows` provisions the four templates sequentially in
the fixed order notification, web-search, home-control, schedule-task; for
every well-formed service (arbitrary statuses allowed, including non-2xx
listing and creation failures) each template contributes its own listing
request (and possibly a creation request) and at least one printed status
line, so a failure for one template never prevents the flow from running for
every subsequent template. -/
theorem setup_all_sequential_spec {σ : Type} (svc : Service σ) (self : N8NWorkflowSetup)
    (rs : RunState σ) (hsvc : WellFormed svc) :
    ∃ rs2 t1 t2 t3 t4 o1 o2 o3 o4,
      self.setup_all_workflows svc rs = .ok rs2 ∧
      rs2.trace = rs.trace ++ t1 ++ t2 ++ t3 ++ t4 ∧
      tShape self sendNotificationWorkflow t1 ∧
      tShape self webSearchWorkflow t2 ∧
      tShape self homeAutomationWorkflow t3 ∧
      tShape self scheduleTaskWorkflow t4 ∧
      rs2.output = rs.output ++ ["Setting up n8n workflows for SHAAD...", eqBanner]
        ++ o1 ++ o2 ++ o3 ++ o4 ++ closingLines ∧
      o1 ≠ [] ∧ o2 ≠ [] ∧ o3 ≠ [] ∧ o4 ≠ [] :=
  setup_all_wf hsvc self rs

theorem setup_all_sequential_spec_witness :
    ∃ rs2, selfW.setup_all_workflows mockService
        { svcState := MockState.empty, trace := [], output := [] } = Except.ok rs2 := by
  obtain ⟨rs2, t1, t2, t3, t4, o1, o2, o3, o4, hrun, -⟩ :=
    setup_all_sequential_spec mockService selfW
      { svcState := MockState.empty, trace := [], output := [] } mockService_wellFormed
  exact ⟨rs2, hrun⟩

/-- The service every request to which raises a transport exception. -/
def crashService : Service Unit where
  handle s _ := (.error .connectionError, s)

/-- C6 counterexample: when the service connection fails, the `requests`
exception is uncaught and the process terminates with exit code 1, not 0 —
the claim's "always exits 0 for every sequence of remote responses and
failures" is false. -/
theorem exit_code_counterexample :
    exitCode (mainRun envUnset crashService ()) = 1 := rfl

/-- C6 (amended): the entry point exits 0 whenever every remote call yields
an HTTP response (no transport fault) and 2xx bodies are well formed —
non-2xx listing or creation responses are recovered locally and reported
only as printed text; a transport failure or a malformed 2xx body instead
propagates as an uncaught exception and a nonzero exit code. -/
theorem exit_code_spec {σ : Type} (env : Env) (svc : Service σ) (s0 : σ)
    (hsvc : WellFormed svc) :
    exitCode (mainRun env svc s0) = 0 := by
  obtain ⟨rs2, t1, t2, t3, t4, o1, o2, o3, o4, hrun, -⟩ :=
    setup_all_wf hsvc (N8NWorkflowSetup.init env)
      { svcState := s0, trace := [], output := [] }
  simp [mainRun, hrun, exitCode]

theorem exit_code_spec_witness :
    exitCode (mainRun envUnset mockService MockState.empty) = 0 :=
  exit_code_spec envUnset mockService MockState.empty mockService_wellFormed

/-- C7: the base URL is `http://{N8N_HOST}:{N8N_PORT}` with defaults
`localhost` and `5678` when the variables are unset, and both the listing
GET and the creation POST target exactly `{base_url}/api/v1/workflows` —
including every request issued by a run of `setup_all_workflows`. -/
theorem base_url_spec (env : Env) (wd : Json) :
    (N8NWorkflowSetup.init env).base_url =
      "http://" ++ pyGetenv env.n8n_host "localhost" ++ ":" ++ pyGetenv env.n8n_port "5678"
    ∧ (env.n8n_host = none → env.n8n_port = none →
        (N8NWorkflowSetup.init env).base_url = "http://localhost:5678")
    ∧ (listRequest (N8NWorkflowSetup.init env)).method = Method.get
    ∧ (listRequest (N8NWorkflowSetup.init env)).url =
        (N8NWorkflowSetup.init env).base_url ++ "/api/v1/workflows"
    ∧ (createRequest (N8NWorkflowSetup.init env) wd).method = Method.post
    ∧ (createRequest (N8NWorkflowSetup.init env) wd).url =
        (N8NWorkflowSetup.init env).base_url ++ "/api/v1/workflows"
    ∧ (∀ (σ : Type) (svc : Service σ) (rs rs2 : RunState σ), WellFormed svc →
        (N8NWorkflowSetup.init env).setup_all_workflows svc rs = .ok rs2 →
        ∀ req ∈ rs2.trace, req ∈ rs.trace ∨
          req.url = (N8NWorkflowSetup.init env).base_url ++ "/api/v1/workflows") := by
  refine ⟨?_, ?_, rfl, rfl, rfl, rfl, ?_⟩
  · unfold N8NWorkflowSetup.init
    split <;> rfl
  · intro h1 h2
    unfold N8NWorkflowSetup.init
    rw [h1, h2]
    split <;> rfl
  · intro σ svc rs rs2 hsvc hrun req hreq
    rcases setup_trace_requests hsvc (N8NWorkflowSetup.init env) rs rs2 hrun req hreq with
      h | ⟨-, -, h3⟩
    · exact .inl h
    · exact .inr h3

theorem base_url_spec_witness :
    (N8NWorkflowSetup.init envUnset).base_url = "http://localhost:5678" :=
  (base_url_spec envUnset Json.null).2.1 rfl rfl

/-- A service whose listing answers 200 with a body whose `data` value is an
empty string — the body has no data array. -/
def emptyDataService : Service Unit where
  handle s _ :=
    (.ok { status_code := 200, text := "\x7b\"data\": \"\"\x7d",
           jsonBody := some (.obj [("data", .str "")]) }, s)

/-- C8 counterexample: on a 200 listing whose body lacks the data array
(its `data` member is the empty string), the claim requires
`workflow_exists` to raise; Python instead iterates the empty string, `any`
over it is `False`, and the call returns normally. -/
theorem malformed_body_counterexample :
    (Json.obj [("data", Json.str "")]).getField "data" = Except.ok (Json.str "") ∧
    N8NWorkflowSetup.workflow_exists selfW emptyDataService "SHAAD_Web_Search"
        { svcState := (), trace := [], output := [] } =
      Except.ok (false, { svcState := (), trace := [listRequest selfW], output := [] }) :=
  ⟨rfl, rfl⟩

/-- C8 (amended): the success paths assume the documented response shape —
if the creation response is 201 but evaluating
`response.json()['data']['id']` raises (body not JSON, or `data`/`id`
missing or of the wrong type), `create_workflow` propagates that exception
uncaught; if the listing response is 200 but obtaining an iterable
`response.json()['data']` raises, `workflow_exists` propagates it uncaught;
the exception is, however, avoided when the malformed `data` value happens
to be an empty iterable, in which case `workflow_exists` returns false. -/
theorem malformed_body_spec {σ : Type} (svc : Service σ) (self : N8NWorkflowSetup)
    (name : String) (wd : Json) (rs : RunState σ) :
    (∀ resp s2 e, svc.handle rs.svcState (createRequest self wd) = (.ok resp, s2) →
      resp.status_code = 201 → createdId resp = .error e →
      self.create_workflow svc wd rs = .error e)
    ∧ (∀ resp s2 e, svc.handle rs.svcState (listRequest self) = (.ok resp, s2) →
      resp.status_code = 200 → listedWorkflows resp = .error e →
      self.workflow_exists svc name rs = .error e) :=
  ⟨fun resp s2 e hh h201 herr => create_workflow_raise hh h201 herr,
   fun resp s2 e hh h200 herr => workflow_exists_raise hh h200 herr⟩

/-- A service whose creation endpoint answers 201 with a non-JSON body. -/
def badJsonService : Service Unit where
  handle s _ :=
    (.ok { status_code := 201, text := "created", jsonBody := none }, s)

theorem malformed_body_spec_witness :
    N8NWorkflowSetup.create_workflow selfW badJsonService sendNotificationWorkflow
        { svcState := (), trace := [], output := [] } =
      Except.error PyErr.jsonDecodeError :=
  (malformed_body_spec badJsonService selfW "SHAAD_Send_Notification"
      sendNotificationWorkflow { svcState := (), trace := [], output := [] }).1
    { status_code := 201, text := "created", jsonBody := none } () PyErr.jsonDecodeError
    rfl rfl rfl

/-- C9: in each of the four template functions, the name checked via
`workflow_exists` is exactly the `name` field of the definition submitted to
`create_workflow`: the template bodies are instances of `provisionWorkflow`
at a name and a definition whose `name` field is that same string. -/
theorem idempotency_key_alignment :
    (∀ (σ : Type) (self : N8NWorkflowSetup) (svc : Service σ) (rs : RunState σ),
      self.create_send_notification_workflow svc rs =
        provisionWorkflow self svc sendNotificationName sendNotificationWorkflow rs ∧
      self.create_web_search_workflow svc rs =
        provisionWorkflow self svc webSearchName webSearchWorkflow rs ∧
      self.create_home_automation_workflow svc rs =
        provisionWorkflow self svc homeControlName homeAutomationWorkflow rs ∧
      self.create_schedule_task_workflow svc rs =
        provisionWorkflow self svc scheduleTaskName scheduleTaskWorkflow rs)
    ∧ expectStr (sendNotificationWorkflow.getField "name") sendNotificationName = true
    ∧ expectStr (webSearchWorkflow.getField "name") webSearchName = true
    ∧ expectStr (homeAutomationWorkflow.getField "name") homeControlName = true
    ∧ expectStr (scheduleTaskWorkflow.getField "name") scheduleTaskName = true :=
  ⟨fun _ _ _ _ => ⟨rfl, rfl, rfl, rfl⟩, rfl, rfl, rfl, rfl⟩

/-- C10: every hard-coded workflow definition is internally consistent —
each node name used in its connections map, whether as a source key or as a
downstream `node` target, names some node in that definition's `nodes`
list. -/
theorem connections_reference_nodes :
    ∀ wd ∈ allWorkflows, ∀ n ∈ connectionRefs wd, n ∈ nodeNames wd := by
  decide

theorem connections_reference_nodes_witness :
    "Route by Channel" ∈ connectionRefs sendNotificationWorkflow ∧
    "Route by Channel" ∈ nodeNames sendNotificationWorkflow :=
  ⟨by decide,
   connections_reference_nodes sendNotificationWorkflow
     (by unfold allWorkflows; exact List.mem_cons_self _ _)
     "Route by Channel" (by decide)⟩
